import Mathlib

/-!
Verification of the TorqueViewer Shape decoder against its specification.

The definitions below are a shallow embedding of the C++ sources:
MemRStream (CommonData.h), BasicStream and SplitStream (shapeIO.h),
the legacy skin migrator IO::correctPreV32Skins (shapeIO.h), the mesh
payload reader IO::readMesh (shapeIO.h), and the post-decode passes
initShapeObjects and initRenderMaterials (viewer runtime).

Machine integers are modelled as Nat with explicit reductions mod 2^w
where the C code can overflow; bytes of memory are lists of Nat
(each entry < 256 for well-formed memory).  Reads beyond the underlying
allocation are undefined behaviour in C; the model returns 0 for such
bytes, and no theorem below depends on that choice except where the
undefined behaviour itself is the point (noted at the definition).
-/

set_option maxRecDepth 10000

/-- Two to the 64: modulus of the uint64 cursor arithmetic in MemRStream. -/
def U64 : Nat := 2 ^ 64

/-- Two to the 32: modulus of uint32 arithmetic. -/
def U32 : Nat := 2 ^ 32

/-- Little-endian value of a byte list; each entry is reduced mod 256,
the way C reassembles a scalar from memory bytes. -/
def leVal : List Nat → Nat
  | [] => 0
  | b :: t => b % 256 + 256 * leVal t

/-- Little-endian byte encoding of v, w bytes wide (a C store of width w
keeps only the low w bytes). -/
def leBytes : Nat → Nat → List Nat
  | 0, _ => []
  | w + 1, v => v % 256 :: leBytes w (v / 256)

theorem leBytes_length (w v : Nat) : (leBytes w v).length = w := by
  induction w generalizing v with
  | zero => rfl
  | succ w ih => simp [leBytes, ih]

theorem mod_mul_decomp (x a b : Nat) : x % (a * b) = x % a + a * (x / a % b) := by
  conv_lhs => rw [← Nat.div_add_mod (x % (a * b)) a]
  rw [Nat.mod_mul_right_div_self, Nat.mod_mul_right_mod, Nat.add_comm]

theorem leVal_leBytes (w v : Nat) : leVal (leBytes w v) = v % 256 ^ w := by
  induction w generalizing v with
  | zero => simp [leBytes, leVal, Nat.mod_one]
  | succ w ih =>
    have hmul : 256 ^ (w + 1) = 256 * 256 ^ w := by ring
    simp only [leBytes, leVal, ih, hmul, mod_mul_decomp]
    omega

/-- Pad a byte list with zeros up to length n (models reading past the
end of an allocation: undefined behaviour in C, fixed to zero bytes here). -/
def zeroPad (n : Nat) (l : List Nat) : List Nat := l ++ List.replicate (n - l.length) 0

/-- Shallow embedding of MemRStream (CommonData.h).  mem is the whole
underlying allocation; start is the offset of mPtr inside it, so that
setOffsetView windows can alias their parent buffer; pos is mPos and
size is mSize, both uint64 in the source. -/
structure MemRStream where
  mem : List Nat
  start : Nat
  pos : Nat
  size : Nat
deriving Repr, DecidableEq

/-- The n bytes of memory at mPtr + mPos. -/
def MemRStream.bytesAt (s : MemRStream) (n : Nat) : List Nat :=
  zeroPad n ((s.mem.drop (s.start + s.pos)).take n)

/-- MemRStream::read(uint64_t size, void* data): the guard is the source's
`mPos >= mSize || mPos+size > mSize`, where mPos+size is computed in
uint64 arithmetic and therefore wraps mod 2^64.  On failure the source
returns false touching neither cursor nor destination, modelled as none. -/
def MemRStream.readBytesN (s : MemRStream) (n : Nat) : Option (List Nat × MemRStream) :=
  if s.pos ≥ s.size ∨ (s.pos + n) % U64 > s.size then none
  else some (s.bytesAt n, { s with pos := (s.pos + n) % U64 })

/-- A read whose result the C caller ignores: on failure the destination
keeps its previous value dflt and the stream is unchanged. -/
def MemRStream.readBytesD (s : MemRStream) (n : Nat) (dflt : List Nat) : List Nat × MemRStream :=
  match s.readBytesN n with
  | none => (dflt, s)
  | some r => r

/-- MemRStream::read<T> for a scalar of width w bytes: same guard shape as
the sized read (with sizeof(T) in place of size), value reassembled
little-endian. -/
def MemRStream.readValN (s : MemRStream) (w : Nat) : Option (Nat × MemRStream) :=
  match s.readBytesN w with
  | none => none
  | some (bs, s') => some (leVal bs, s')

/-- Scalar read into an existing variable: on failure the variable keeps
its previous value dflt, the way the decoder's ignored ds.read calls do. -/
def MemRStream.readValD (s : MemRStream) (w : Nat) (dflt : Nat) : Nat × MemRStream :=
  match s.readValN w with
  | none => (dflt, s)
  | some r => r

/-- Overwrite bytes of an allocation starting at offset off; writes past
the end of the allocation are dropped (List.set is the identity out of
range), matching that such a memcpy is undefined behaviour in C. -/
def setBytes (m : List Nat) (off : Nat) (bs : List Nat) : List Nat :=
  match bs with
  | [] => m
  | b :: t => setBytes (m.set off b) (off + 1) t

/-- MemRStream::write(uint64_t size, const void* data): same guard as the
read; on failure the source returns false and changes nothing, and every
caller in the decoder ignores that result, so failure leaves the state
unchanged. -/
def MemRStream.writeBytes (s : MemRStream) (bs : List Nat) : MemRStream :=
  if s.pos ≥ s.size ∨ (s.pos + bs.length) % U64 > s.size then s
  else { s with mem := setBytes s.mem (s.start + s.pos) bs, pos := (s.pos + bs.length) % U64 }

/-- MemRStream::write<T> of a scalar of width w. -/
def MemRStream.writeValW (s : MemRStream) (w v : Nat) : MemRStream :=
  s.writeBytes (leBytes w v)

/-- A concrete 4-byte stream with the cursor at byte 1, used to exhibit
the uint64 wraparound in the bounds guard. -/
def cexStream : MemRStream := { mem := [0, 0, 0, 0], start := 0, pos := 1, size := 4 }

/-- C10 counterexample: a sized read of 2^64 - 1 bytes from position 1 of a
4-byte stream would advance the cursor far past the buffer end, yet the
guard mPos+size > mSize wraps to 0 in uint64 arithmetic, so the read does
NOT return false (the source then falls into a wild memcpy).  This refutes
the claim that every read that would pass the end returns false. -/
theorem c10_overflow_counterexample :
    cexStream.pos + (U64 - 1) > cexStream.size ∧
    (cexStream.readBytesN (U64 - 1)).isSome = true := by
  have hU : U64 = 18446744073709551616 := by norm_num [U64]
  constructor
  · show 1 + (U64 - 1) > 4
    omega
  · have hmod : (1 + (U64 - 1)) % U64 = 0 := by
      have h1 : 1 + (U64 - 1) = U64 := by omega
      simp [h1]
    simp [MemRStream.readBytesN, cexStream, hmod]

/-- C10 amended: provided the 64-bit sum mPos + size does not wrap, every
read (scalar, array or sized) that would advance the cursor past the buffer
end fails, leaving the cursor and the caller's destination unchanged; and a
zero-length sized read issued exactly at the buffer end also fails. -/
theorem c10_read_bounds_amended (s : MemRStream) (w d : Nat) (bs : List Nat)
    (hnw : s.pos + w < U64) :
    (s.pos + w > s.size →
      s.readBytesN w = none ∧
      s.readBytesD w bs = (bs, s) ∧
      s.readValD w d = (d, s)) ∧
    (s.pos = s.size → s.readBytesN w = none) := by
  have hguard : s.pos + w > s.size →
      (s.pos ≥ s.size ∨ (s.pos + w) % U64 > s.size) := by
    intro hg
    right
    rwa [Nat.mod_eq_of_lt hnw]
  refine ⟨fun hg => ?_, fun he => ?_⟩
  · have hnone : s.readBytesN w = none := by
      simp [MemRStream.readBytesN, hguard hg]
    exact ⟨hnone, by simp [MemRStream.readBytesD, hnone],
      by simp [MemRStream.readValD, MemRStream.readValN, hnone]⟩
  · simp [MemRStream.readBytesN, he]

/-- Witness for c10_read_bounds_amended at a concrete stream: reading 5
bytes from position 1 of a 2-byte stream fails and leaves everything
unchanged. -/
theorem c10_read_bounds_witness :
    ({ mem := [7, 7], start := 0, pos := 1, size := 2 } : MemRStream).readValD 5 3 =
      (3, { mem := [7, 7], start := 0, pos := 1, size := 2 }) :=
  (((c10_read_bounds_amended { mem := [7, 7], start := 0, pos := 1, size := 2 } 5 3 []
    (by norm_num [U64])).1 (by norm_num)).2).2

/-- Shallow embedding of SplitStream (shapeIO.h): three width-partitioned
cursors, the checkpoint counter checkCount (uint32) and the dts version. -/
structure SplitStream where
  b32 : MemRStream
  b16 : MemRStream
  b8 : MemRStream
  checkCount : Nat
  dtsVersion : Nat
deriving Repr, DecidableEq

/-- SplitStream::storeCheck: write checkCount % 256 to the 8-bit stream,
checkCount % 65536 to the 16-bit stream and checkCount % 2^32 to the
32-bit stream, then increment the counter (uint32 wraparound).  The
write results are ignored by the source. -/
def SplitStream.storeCheck (s : SplitStream) : SplitStream :=
  { s with
    b8 := s.b8.writeValW 1 (s.checkCount % 256)
    b16 := s.b16.writeValW 2 (s.checkCount % 65536)
    b32 := s.b32.writeValW 4 (s.checkCount % U32)
    checkCount := (s.checkCount + 1) % U32 }

/-- SplitStream::readCheck: read one 8-, 16- and 32-bit value (locals
initialised to 0, kept on a failed read), compare each with the full
uint32 checkCount — the source compares the truncated stored values
against the untruncated counter — and increment the counter on both
outcomes. -/
def SplitStream.readCheck (s : SplitStream) : Bool × SplitStream :=
  let r8 := s.b8.readValD 1 0
  let r16 := s.b16.readValD 2 0
  let r32 := s.b32.readValD 4 0
  (decide (r8.1 = s.checkCount ∧ r16.1 = s.checkCount ∧ r32.1 = s.checkCount),
   { s with b8 := r8.2, b16 := r16.2, b32 := r32.2,
            checkCount := (s.checkCount + 1) % U32 })

/-- SplitStream::read<T> for a 4-byte scalar: routed to the 32-bit stream;
dflt is the variable's previous value, kept if the read fails. -/
def SplitStream.readU32 (s : SplitStream) (dflt : Nat) : Nat × SplitStream :=
  let r := s.b32.readValD 4 dflt
  (r.1, { s with b32 := r.2 })

/-- SplitStream::read<T> for a 2-byte scalar: routed to the 16-bit stream. -/
def SplitStream.readU16 (s : SplitStream) (dflt : Nat) : Nat × SplitStream :=
  let r := s.b16.readValD 2 dflt
  (r.1, { s with b16 := r.2 })

/-- SplitStream::read<T> for a 1-byte scalar: routed to the 8-bit stream. -/
def SplitStream.readU8 (s : SplitStream) (dflt : Nat) : Nat × SplitStream :=
  let r := s.b8.readValD 1 dflt
  (r.1, { s with b8 := r.2 })

/-- Write-side split state at counter k, with exactly enough room in each
stream for one checkpoint record. -/
def ckWriteState (k : Nat) : SplitStream :=
  { b32 := { mem := [0, 0, 0, 0], start := 0, pos := 0, size := 4 }
    b16 := { mem := [0, 0], start := 0, pos := 0, size := 2 }
    b8 := { mem := [0], start := 0, pos := 0, size := 1 }
    checkCount := k % U32
    dtsVersion := 24 }

/-- Rewind all three cursors of a split stream to 0 and set the expected
counter, turning a just-written checkpoint into the state a reader sees
when it reaches that checkpoint. -/
def rewindTo (s : SplitStream) (k : Nat) : SplitStream :=
  { s with b32 := { s.b32 with pos := 0 }, b16 := { s.b16 with pos := 0 },
           b8 := { s.b8 with pos := 0 }, checkCount := k % U32 }

/-- storeCheck at counter k followed by readCheck over the very bytes just
stored, with expected counter k: the round trip of one checkpoint. -/
def ckRoundTrip (k : Nat) : Bool :=
  ((rewindTo ((ckWriteState k).storeCheck) k).readCheck).1

/-- C1 counterexample: at checkpoint index k = 256 the stored 8-bit
truncation is 0, and readCheck compares it against the untruncated
expected counter 256, so readCheck fails on data produced by storeCheck
with the same counter value, refuting the claim's closing clause. -/
theorem c1_roundtrip_256_counterexample : ckRoundTrip 256 = false := by decide


theorem c1_store8 (k : Nat) : (ckWriteState k).storeCheck.b8 =
    { mem := [k % 256], start := 0, pos := 1, size := 1 } := by
  simp [ckWriteState, SplitStream.storeCheck, MemRStream.writeValW,
    MemRStream.writeBytes, setBytes, leBytes, U64, U32]
  all_goals omega

theorem c1_store16 (k : Nat) : (ckWriteState k).storeCheck.b16 =
    { mem := [k % 256, k % 65536 / 256 % 256], start := 0, pos := 2, size := 2 } := by
  simp [ckWriteState, SplitStream.storeCheck, MemRStream.writeValW,
    MemRStream.writeBytes, setBytes, leBytes, U64, U32]
  all_goals omega

theorem c1_store32 (k : Nat) : (ckWriteState k).storeCheck.b32 =
    { mem := [k % 256, k % U32 / 256 % 256, k % U32 / 256 / 256 % 256,
              k % U32 / 256 / 256 / 256 % 256],
      start := 0, pos := 4, size := 4 } := by
  simp [ckWriteState, SplitStream.storeCheck, MemRStream.writeValW,
    MemRStream.writeBytes, setBytes, leBytes, U64, U32]
  all_goals omega

/-- C1 amended: storeCheck does write the three truncations of the counter
into the 8-, 16- and 32-bit streams; readCheck over those bytes at expected
counter k succeeds exactly when every stored truncation equals the full
counter, which for a uint32 counter means k < 256 — not for every k. -/
theorem c1_checkpoint_amended (k : Nat) (hk : k < U32) :
    ((ckWriteState k).storeCheck.b8.mem = leBytes 1 (k % 2 ^ 8) ∧
     (ckWriteState k).storeCheck.b16.mem = leBytes 2 (k % 2 ^ 16) ∧
     (ckWriteState k).storeCheck.b32.mem = leBytes 4 (k % 2 ^ 32)) ∧
    (ckRoundTrip k = true ↔ (k % 2 ^ 8 = k ∧ k % 2 ^ 16 = k ∧ k % 2 ^ 32 = k)) ∧
    (ckRoundTrip k = true ↔ k < 2 ^ 8) := by
  have hkU : k % U32 = k := Nat.mod_eq_of_lt hk
  have hU32 : U32 = 4294967296 := by norm_num [U32]
  have hrt : ckRoundTrip k = (decide (k % 256 = k) &&
      (decide (k % 256 + 256 * (k % 65536 / 256 % 256) = k) &&
       decide (k % 256 + 256 * (k % U32 / 256 % 256 + 256 *
          (k % U32 / 256 / 256 % 256 + 256 * (k % U32 / 256 / 256 / 256 % 256))) = k))) := by
    simp only [ckRoundTrip, rewindTo, c1_store8, c1_store16, c1_store32]
    simp [SplitStream.readCheck, MemRStream.readValD, MemRStream.readValN,
      MemRStream.readBytesN, MemRStream.bytesAt, zeroPad, leVal,
      ckWriteState, SplitStream.storeCheck, U64, hkU]
  refine ⟨⟨?_, ?_, ?_⟩, ?_, ?_⟩
  · rw [c1_store8]
    simp [leBytes]
  · rw [c1_store16]
    simp [leBytes]
    all_goals omega
  · rw [c1_store32]
    simp [leBytes, hU32]
    all_goals omega
  · rw [hrt]
    simp only [Bool.and_eq_true, decide_eq_true_eq]
    rw [hU32] at hkU ⊢
    norm_num
    all_goals omega
  · rw [hrt]
    simp only [Bool.and_eq_true, decide_eq_true_eq]
    rw [hU32] at hkU ⊢
    norm_num
    all_goals omega

/-- Witness for c1_checkpoint_amended at k = 7: the checkpoint round trip
succeeds below 256. -/
theorem c1_checkpoint_witness :
    ckRoundTrip 7 = true ↔ 7 < 2 ^ 8 :=
  (c1_checkpoint_amended 7 (by norm_num [U32])).2.2

/-- A split read state laid out as checkpoint 0, then one 4-byte payload
word whose low byte is b, then checkpoint 1; the payload byte sits
strictly between the stored positions of the two checkpoints in stream A
(bytes 0-3 hold counter 0, bytes 8-11 hold counter 1). -/
def flipPayloadState (b : Nat) : SplitStream :=
  { b32 := { mem := [0, 0, 0, 0, b, 0, 0, 0, 1, 0, 0, 0], start := 0, pos := 0, size := 12 }
    b16 := { mem := [0, 0, 1, 0], start := 0, pos := 0, size := 4 }
    b8 := { mem := [0, 1], start := 0, pos := 0, size := 2 }
    checkCount := 0
    dtsVersion := 24 }

/-- The same layout with payload 5, but with b substituted for the low
byte of checkpoint 1's stored 32-bit counter in stream A. -/
def flipCheckState (b : Nat) : SplitStream :=
  { b32 := { mem := [0, 0, 0, 0, 5, 0, 0, 0, b, 0, 0, 0], start := 0, pos := 0, size := 12 }
    b16 := { mem := [0, 0, 1, 0], start := 0, pos := 0, size := 4 }
    b8 := { mem := [0, 1], start := 0, pos := 0, size := 2 }
    checkCount := 0
    dtsVersion := 24 }

/-- Decode of the tiny layout: readCheck, one 32-bit scalar read, readCheck;
returns the outcomes of the two checkpoints. -/
def flipRun (s : SplitStream) : Bool × Bool :=
  let r0 := s.readCheck
  let r1 := r0.2.readU32 0
  let r2 := r1.2.readCheck
  (r0.1, r2.1)

/-- C8 counterexample: flipping the single payload byte between the two
checkpoints (5 becomes 4, a one-bit flip at stream A byte 4) leaves BOTH
checkpoints succeeding — the next readCheck does not fail, refuting the
claim that any single-byte flip between two checkpoints is detected. -/
theorem c8_flip_counterexample :
    flipRun (flipPayloadState 4) = (true, true) ∧
    (flipPayloadState 4).b32.mem ≠ (flipPayloadState 5).b32.mem := by
  constructor
  · decide
  · decide

/-- C8 amended: a corrupted byte between two checkpoints is detected only
when it changes the values read back at the checkpoint positions.  For
every value of the payload byte both checkpoints still succeed, while
corrupting the low byte of checkpoint 1's stored 32-bit counter to any
value other than 1 makes the second readCheck fail. -/
theorem c8_flip_amended (b : Nat) :
    flipRun (flipPayloadState b) = (true, true) ∧
    (b % 256 ≠ 1 → flipRun (flipCheckState b) = (true, false)) := by
  constructor
  · simp [flipRun, flipPayloadState, SplitStream.readCheck, SplitStream.readU32,
      MemRStream.readValD, MemRStream.readValN, MemRStream.readBytesN,
      MemRStream.bytesAt, zeroPad, leVal, U64, U32]
  · intro hb
    simp [flipRun, flipCheckState, SplitStream.readCheck, SplitStream.readU32,
      MemRStream.readValD, MemRStream.readValN, MemRStream.readBytesN,
      MemRStream.bytesAt, zeroPad, leVal, U64, U32, hb]

/-- Witness for c8_flip_amended at b = 7: the payload flip goes
undetected while the checkpoint-byte flip is caught. -/
theorem c8_flip_witness :
    flipRun (flipPayloadState 7) = (true, true) ∧
    flipRun (flipCheckState 7) = (true, false) :=
  ⟨(c8_flip_amended 7).1, (c8_flip_amended 7).2 (by decide)⟩

/-- Reinterpret a stored 32-bit word as a signed int32 value. -/
def toInt32 (n : Nat) : Int :=
  if n % U32 < 2147483648 then ((n % U32 : Nat) : Int) else ((n % U32 : Nat) : Int) - 4294967296

/-- size_t cast of a signed value: two's complement mod 2^64. -/
def usizeI (i : Int) : Nat := (i % (U64 : Int)).toNat

/-- The i-th little-endian 32-bit word of a byte list. -/
def word32At (bs : List Nat) (i : Nat) : Nat := leVal ((bs.drop (4 * i)).take 4)

theorem usizeI_ofNat (n : Nat) (h : n < U64) : usizeI (n : Int) = n := by
  unfold usizeI
  rw [Int.emod_eq_of_lt (by positivity) (by exact_mod_cast h)]
  simp

/-- SplitStream::floodFromStream (shapeIO.h): read the 4-word header (an
ignored-result sized read: on failure the header words stay
value-initialised to zero), take the version from the low byte of header
word 0, reject versions below 19 (the assert(false)-and-return path,
modelled as none), then carve three windows out of the source buffer at
its current position: stream A at byte 0 sized offset16 words, stream B
at byte offset16*4 sized (offset8-offset16)*sizeof(int32_t) bytes,
stream C at byte offset8*4 sized (totalSize-offset8)*sizeof(int32_t)
bytes; finally advance the source cursor by totalSize*4 and reset the
checkpoint counter. -/
def SplitStream.floodFromStream (src : MemRStream) : Option (SplitStream × MemRStream) :=
  let rh := src.readBytesD 16 (List.replicate 16 0)
  let hb := rh.1
  let src1 := rh.2
  let dtsVersion := word32At hb 0 % 256
  if dtsVersion < 19 then none
  else
    let totalSize := toInt32 (word32At hb 1)
    let offset16 := toInt32 (word32At hb 2)
    let offset8 := toInt32 (word32At hb 3)
    let allocated32 := offset16
    let allocated16 := offset8 - offset16
    let allocated8 := totalSize - offset8
    let base := src1.start + src1.pos
    some
      ({ b32 := { mem := src1.mem, start := base, pos := 0, size := usizeI (allocated32 * 4) }
         b16 := { mem := src1.mem, start := base + usizeI (offset16 * 4), pos := 0,
                  size := usizeI (allocated16 * 4) }
         b8 := { mem := src1.mem, start := base + usizeI (offset8 * 4), pos := 0,
                 size := usizeI (allocated8 * 4) }
         checkCount := 0
         dtsVersion := dtsVersion },
       { src1 with pos := (src1.pos + usizeI (totalSize * 4)) % U64 })

/-- A source buffer for the split layout: 4-word header followed by the
payload bytes. -/
def mkSplitSrc (vE totalW offB offC : Nat) (payload : List Nat) : MemRStream :=
  { mem := leBytes 4 vE ++ leBytes 4 totalW ++ leBytes 4 offB ++ leBytes 4 offC ++ payload
    start := 0
    pos := 0
    size := 16 + payload.length }

theorem readBytesD_success (s : MemRStream) (n : Nat) (dflt : List Nat)
    (h1 : s.pos < s.size) (h2 : s.pos + n ≤ s.size) (h3 : s.size < U64) :
    s.readBytesD n dflt = (s.bytesAt n, { s with pos := s.pos + n }) := by
  have hm : (s.pos + n) % U64 = s.pos + n := Nat.mod_eq_of_lt (by omega)
  have hg : ¬(s.size ≤ s.pos ∨ s.size < s.pos + n) := by omega
  simp [MemRStream.readBytesD, MemRStream.readBytesN, hm, hg]

theorem word32At_quad (a b c d : List Nat)
    (ha : a.length = 4) (hb : b.length = 4) (hc : c.length = 4) (hd : d.length = 4) :
    word32At (a ++ (b ++ (c ++ d))) 0 = leVal a ∧
    word32At (a ++ (b ++ (c ++ d))) 1 = leVal b ∧
    word32At (a ++ (b ++ (c ++ d))) 2 = leVal c ∧
    word32At (a ++ (b ++ (c ++ d))) 3 = leVal d := by
  have h4 : (a ++ (b ++ (c ++ d))).drop 4 = b ++ (c ++ d) := List.drop_left' ha
  have hsplit8 : a ++ (b ++ (c ++ d)) = (a ++ b) ++ (c ++ d) := by simp
  have h8 : (a ++ (b ++ (c ++ d))).drop 8 = c ++ d := by
    rw [hsplit8, List.drop_left' (by simp [ha, hb])]
  have hsplit12 : a ++ (b ++ (c ++ d)) = (a ++ (b ++ c)) ++ d := by simp
  have h12 : (a ++ (b ++ (c ++ d))).drop 12 = d := by
    rw [hsplit12, List.drop_left' (by simp [ha, hb, hc])]
  refine ⟨?_, ?_, ?_, ?_⟩
  · show leVal (((a ++ (b ++ (c ++ d))).drop (4 * 0)).take 4) = leVal a
    norm_num
    rw [List.take_left' ha]
  · show leVal (((a ++ (b ++ (c ++ d))).drop (4 * 1)).take 4) = leVal b
    norm_num
    rw [h4, List.take_left' hb]
  · show leVal (((a ++ (b ++ (c ++ d))).drop (4 * 2)).take 4) = leVal c
    norm_num
    rw [h8, List.take_left' hc]
  · show leVal (((a ++ (b ++ (c ++ d))).drop (4 * 3)).take 4) = leVal d
    norm_num
    rw [h12, List.take_of_length_le (by omega)]

theorem toInt32_ofNat (n : Nat) (h : n < 2147483648) : toInt32 n = (n : Int) := by
  have h32 : n % U32 = n := Nat.mod_eq_of_lt (by norm_num [U32]; omega)
  unfold toInt32
  rw [h32, if_pos h]

theorem mkSplitSrc_take16 (vE totalW offB offC : Nat) (payload : List Nat) :
    (mkSplitSrc vE totalW offB offC payload).mem.take 16 =
      leBytes 4 vE ++ (leBytes 4 totalW ++ (leBytes 4 offB ++ leBytes 4 offC)) := by
  have hsplit : (mkSplitSrc vE totalW offB offC payload).mem =
      (leBytes 4 vE ++ (leBytes 4 totalW ++ (leBytes 4 offB ++ leBytes 4 offC))) ++ payload := by
    simp [mkSplitSrc]
  rw [hsplit, List.take_left' (by simp [leBytes_length])]

/-- C2 amended: on construction for reading, floodFromStream recomputes the
three windows with stream A at byte 0 of the payload sized offsetB*4
bytes, stream B at byte offset offsetB*4 sized (offsetC-offsetB)*4 bytes —
the source multiplies by sizeof(int32_t), so the window holds
(offsetC-offsetB)*2 16-bit scalars, i.e. twice the byte count the claim
states — and stream C at byte offset offsetC*4 sized (totalWords-offsetC)*4
bytes; the source cursor advances past the header plus totalWords words. -/
theorem c2_flood_windows_amended (vE totalW offB offC : Nat) (payload : List Nat)
    (hv : 19 ≤ vE % 256) (hvE : vE < U32) (h1 : offB ≤ offC) (h2 : offC ≤ totalW)
    (h3 : totalW < 2 ^ 31) (hp : 16 + payload.length < U64) :
    SplitStream.floodFromStream (mkSplitSrc vE totalW offB offC payload) =
      some
        ({ b32 := { mem := (mkSplitSrc vE totalW offB offC payload).mem, start := 16, pos := 0,
                    size := 4 * offB }
           b16 := { mem := (mkSplitSrc vE totalW offB offC payload).mem, start := 16 + 4 * offB,
                    pos := 0, size := 4 * (offC - offB) }
           b8 := { mem := (mkSplitSrc vE totalW offB offC payload).mem, start := 16 + 4 * offC,
                   pos := 0, size := 4 * (totalW - offC) }
           checkCount := 0
           dtsVersion := vE % 256 },
         { mkSplitSrc vE totalW offB offC payload with pos := 16 + 4 * totalW }) := by
  have hU64 : U64 = 18446744073709551616 := by norm_num [U64]
  have hU32 : U32 = 4294967296 := by norm_num [U32]
  have hbig : ∀ m : Nat, m ≤ totalW → usizeI ((m : Int) * 4) = 4 * m := by
    intro m hm
    have hc : ((m : Int) * 4) = ((4 * m : Nat) : Int) := by push_cast; ring
    rw [hc, usizeI_ofNat]
    omega
  have hread : (mkSplitSrc vE totalW offB offC payload).readBytesD 16 (List.replicate 16 0) =
      ((mkSplitSrc vE totalW offB offC payload).bytesAt 16,
       { mkSplitSrc vE totalW offB offC payload with pos := 0 + 16 }) := by
    apply readBytesD_success
    · simp [mkSplitSrc]
    · simp [mkSplitSrc]
    · simpa [mkSplitSrc] using hp
  have hbytes : (mkSplitSrc vE totalW offB offC payload).bytesAt 16 =
      leBytes 4 vE ++ (leBytes 4 totalW ++ (leBytes 4 offB ++ leBytes 4 offC)) := by
    have ht := mkSplitSrc_take16 vE totalW offB offC payload
    simp only [MemRStream.bytesAt, mkSplitSrc, zeroPad] at ht ⊢
    simp only [List.append_assoc] at ht
    norm_num
    rw [ht]
    simp [leBytes_length]
    omega
  have hw := word32At_quad (leBytes 4 vE) (leBytes 4 totalW) (leBytes 4 offB) (leBytes 4 offC)
    (leBytes_length 4 vE) (leBytes_length 4 totalW) (leBytes_length 4 offB)
    (leBytes_length 4 offC)
  have hval : ∀ m : Nat, m < U32 → leVal (leBytes 4 m) = m := by
    intro m hm
    rw [leVal_leBytes]
    have : (256 : Nat) ^ 4 = U32 := by norm_num [U32]
    rw [this]
    exact Nat.mod_eq_of_lt hm
  have hw0 : word32At ((mkSplitSrc vE totalW offB offC payload).bytesAt 16) 0 = vE := by
    rw [hbytes, hw.1, hval vE hvE]
  have hw1 : word32At ((mkSplitSrc vE totalW offB offC payload).bytesAt 16) 1 = totalW := by
    rw [hbytes, hw.2.1, hval totalW (by omega)]
  have hw2 : word32At ((mkSplitSrc vE totalW offB offC payload).bytesAt 16) 2 = offB := by
    rw [hbytes, hw.2.2.1, hval offB (by omega)]
  have hw3 : word32At ((mkSplitSrc vE totalW offB offC payload).bytesAt 16) 3 = offC := by
    rw [hbytes, hw.2.2.2, hval offC (by omega)]
  have ht1 : toInt32 totalW = (totalW : Int) := toInt32_ofNat totalW (by omega)
  have ht2 : toInt32 offB = (offB : Int) := toInt32_ofNat offB (by omega)
  have ht3 : toInt32 offC = (offC : Int) := toInt32_ofNat offC (by omega)
  have hsub1 : ((offC : Int) - offB) * 4 = (((offC - offB) : Nat) : Int) * 4 := by
    rw [Nat.cast_sub h1]
  have hsub2 : ((totalW : Int) - offC) * 4 = (((totalW - offC) : Nat) : Int) * 4 := by
    rw [Nat.cast_sub h2]
  simp only [SplitStream.floodFromStream, hread, hw0, hw1, hw2, hw3]
  rw [if_neg (by omega)]
  have hmod : (16 + 4 * totalW) % U64 = 16 + 4 * totalW := Nat.mod_eq_of_lt (by omega)
  simp only [ht1, ht2, ht3, hsub1, hsub2, hbig offB (by omega), hbig offC (by omega),
    hbig totalW (by omega), hbig (offC - offB) (by omega), hbig (totalW - offC) (by omega)]
  simp [mkSplitSrc, hmod]

/-- Witness for c2_flood_windows_amended: header words (24, 3, 1, 2) give
stream A 4 bytes at offset 0, stream B 4 bytes at payload byte 4, and
stream C 4 bytes at payload byte 8 (starts 16, 20, 24 counted from the
whole buffer). -/
theorem c2_flood_windows_witness :
    (SplitStream.floodFromStream (mkSplitSrc 24 3 1 2 (List.replicate 12 0))).map
        (fun r => (r.1.b32.size, r.1.b16.start, r.1.b16.size, r.1.b8.start, r.1.b8.size)) =
      some (4, 20, 4, 24, 4) := by
  rw [c2_flood_windows_amended 24 3 1 2 (List.replicate 12 0) (by norm_num) (by norm_num [U32])
    (by norm_num) (by norm_num) (by norm_num) (by norm_num [U64])]
  rfl

/-- C2 counterexample: with header (24, 3, 1, 2) the claim puts stream B's
byte length at (offsetC-offsetB)*2 = 2, but floodFromStream allocates
(offsetC-offsetB)*sizeof(int32_t) = 4 bytes. -/
theorem c2_blength_counterexample :
    (SplitStream.floodFromStream (mkSplitSrc 24 3 1 2 (List.replicate 12 0))).map
        (fun r => r.1.b16.size) = some 4 ∧ (4 : Nat) ≠ (2 - 1) * 2 := by
  constructor
  · decide
  · decide

/-- Shallow embedding of BasicStream (shapeIO.h): the linear layout.  Only
the version survives the header read; the struct also keeps a pointer to
the base stream, which the model carries as the returned stream. -/
structure BasicStream where
  version : Nat
deriving Repr, DecidableEq

/-- BasicStream::readHeader (shapeIO.h): a sized read of the 16-byte
header whose result is ignored (on failure the words stay
value-initialised to zero), then version = hdr[1] & 0xFFFF.  The source
checks neither the magic word 861099076 nor any version range, and its
declared bool result is never set (the function body has no return
statement); there is no failure path to model. -/
def BasicStream.readHeader (src : MemRStream) : BasicStream × MemRStream :=
  let rh := src.readBytesD 16 (List.replicate 16 0)
  ({ version := word32At rh.1 1 % 65536 }, rh.2)

/-- A source buffer in the linear layout: magic, packed version, two
reserved words, then the payload. -/
def mkLinearSrc (magic ver : Nat) (payload : List Nat) : MemRStream :=
  { mem := leBytes 4 magic ++ leBytes 4 ver ++ leBytes 4 0 ++ leBytes 4 0 ++ payload
    start := 0
    pos := 0
    size := 16 + payload.length }

/-- C5 counterexample: a linear-layout buffer with magic 0 (not 861099076)
and version 99 (outside 15..24) is accepted by readHeader with version 99
and no error of any kind, and a split-layout buffer with version 99 is
accepted by floodFromStream; the claimed UnsupportedVersion rejection does
not exist. -/
theorem c5_no_validation_counterexample :
    (BasicStream.readHeader (mkLinearSrc 0 99 [])).1.version = 99 ∧
    ¬(15 ≤ 99 ∧ 99 ≤ 24) ∧
    (SplitStream.floodFromStream (mkSplitSrc 99 0 0 0 [])).isSome = true := by
  refine ⟨by decide, by decide, by decide⟩

/-- C5 amended: neither layout validates the magic or the 15..24 version
range.  The linear readHeader accepts every header, producing version =
hdr[1] & 0xFFFF with no error path; the split floodFromStream rejects (by
assertion) exactly the buffers whose first header word has low byte below
19, and accepts everything else, including versions above 24. -/
theorem c5_version_gate_amended (magic ver : Nat) (payload : List Nat)
    (hver : ver < U32) (hp : 16 + payload.length < U64) (src : MemRStream) :
    (BasicStream.readHeader (mkLinearSrc magic ver payload)).1.version = ver % 65536 ∧
    (SplitStream.floodFromStream src = none ↔
      word32At ((src.readBytesD 16 (List.replicate 16 0)).1) 0 % 256 < 19) := by
  constructor
  · have hread : (mkLinearSrc magic ver payload).readBytesD 16 (List.replicate 16 0) =
        ((mkLinearSrc magic ver payload).bytesAt 16,
         { mkLinearSrc magic ver payload with pos := 0 + 16 }) := by
      apply readBytesD_success
      · simp [mkLinearSrc]
      · simp [mkLinearSrc]
      · simpa [mkLinearSrc] using hp
    have hbytes : (mkLinearSrc magic ver payload).bytesAt 16 =
        leBytes 4 magic ++ (leBytes 4 ver ++ (leBytes 4 0 ++ leBytes 4 0)) := by
      have hsplit : (mkLinearSrc magic ver payload).mem =
          (leBytes 4 magic ++ (leBytes 4 ver ++ (leBytes 4 0 ++ leBytes 4 0))) ++ payload := by
        simp [mkLinearSrc]
      simp only [MemRStream.bytesAt, mkLinearSrc, zeroPad]
      simp only [List.append_assoc] at hsplit
      simp only [mkLinearSrc] at hsplit
      norm_num
      rw [show (leBytes 4 magic ++ (leBytes 4 ver ++ (leBytes 4 0 ++ (leBytes 4 0 ++ payload)))).take 16 =
            leBytes 4 magic ++ (leBytes 4 ver ++ (leBytes 4 0 ++ leBytes 4 0)) from ?_]
      · simp [leBytes_length]
        omega
      · have : leBytes 4 magic ++ (leBytes 4 ver ++ (leBytes 4 0 ++ (leBytes 4 0 ++ payload))) =
            (leBytes 4 magic ++ (leBytes 4 ver ++ (leBytes 4 0 ++ leBytes 4 0))) ++ payload := by
          simp
        rw [this, List.take_left' (by simp [leBytes_length])]
    have hw := word32At_quad (leBytes 4 magic) (leBytes 4 ver) (leBytes 4 0) (leBytes 4 0)
      (leBytes_length 4 magic) (leBytes_length 4 ver) (leBytes_length 4 0) (leBytes_length 4 0)
    have hval : leVal (leBytes 4 ver) = ver := by
      rw [leVal_leBytes]
      have h4 : (256 : Nat) ^ 4 = U32 := by norm_num [U32]
      rw [h4]
      exact Nat.mod_eq_of_lt hver
    simp only [BasicStream.readHeader, hread, hbytes, hw.2.1, hval]
  · unfold SplitStream.floodFromStream
    by_cases h : word32At ((src.readBytesD 16 (List.replicate 16 0)).1) 0 % 256 < 19
    · simp [h]
    · simp [h]

/-- Witness for c5_version_gate_amended: a linear header with garbage magic
5 and version 99 yields version 99; an all-zero split source is rejected
only because its version byte 0 is below 19. -/
theorem c5_version_gate_witness :
    (BasicStream.readHeader (mkLinearSrc 5 99 [])).1.version = 99 % 65536 ∧
    (SplitStream.floodFromStream { mem := [], start := 0, pos := 0, size := 0 } = none ↔
      word32At ((MemRStream.readBytesD { mem := [], start := 0, pos := 0, size := 0 } 16
        (List.replicate 16 0)).1) 0 % 256 < 19) :=
  c5_version_gate_amended 5 99 [] (by norm_num [U32]) (by norm_num [U64])
    { mem := [], start := 0, pos := 0, size := 0 }

/-- One bounded unfolding of the while loop of flushToStream that pads the
8-bit buffer to a 4-byte boundary: while the byte count is not a multiple
of 4, write one zero byte (result ignored) and increment the local count.
The loop body runs at most 3 times, so fuel 3 makes this the exact loop. -/
def padLoop8Aux : Nat → MemRStream → Nat → MemRStream × Nat
  | 0, b, sz => (b, sz)
  | fuel + 1, b, sz =>
    if sz % 4 = 0 then (b, sz) else padLoop8Aux fuel (b.writeValW 1 0) (sz + 1)

/-- The stream C padding loop of flushToStream. -/
def padLoop8 (b : MemRStream) (sz : Nat) : MemRStream × Nat := padLoop8Aux 3 b sz

/-- The first n bytes of a buffer's allocation counted from mPtr: the
source hands buffer.mPtr to destStream.write, ignoring the cursor.
Reading past the allocation is undefined behaviour, modelled as zeros. -/
def MemRStream.allocBytes (s : MemRStream) (n : Nat) : List Nat :=
  zeroPad n ((s.mem.drop s.start).take n)

/-- SplitStream::write<T> for a scalar: the source compares sizeof(T)
against 32, 16 and 8 — never against the true byte widths 4, 2 and 1 —
so for every actual scalar type it falls into the assert(false) branch
and stores nothing. -/
def SplitStream.writeScalar (s : SplitStream) (w v : Nat) : SplitStream :=
  if w = 32 then { s with b32 := s.b32.writeValW 32 v }
  else if w = 16 then { s with b16 := s.b16.writeValW 16 v }
  else if w = 8 then { s with b8 := s.b8.writeValW 8 v }
  else s

/-- SplitStream::write32(1, &v): the sized write entry point, which does
route to the 32-bit buffer. -/
def SplitStream.write32 (s : SplitStream) (v : Nat) : SplitStream :=
  { s with b32 := s.b32.writeValW 4 v }

/-- SplitStream::write16(1, &v). -/
def SplitStream.write16 (s : SplitStream) (v : Nat) : SplitStream :=
  { s with b16 := s.b16.writeValW 2 v }

/-- SplitStream::write8(1, &v). -/
def SplitStream.write8 (s : SplitStream) (v : Nat) : SplitStream :=
  { s with b8 := s.b8.writeValW 1 v }

/-- SplitStream::flushToStream (shapeIO.h): take the three byte counts
from the cursors, pad stream B to an even byte count (note the source
then advances the local count by 1, not 2) and stream C to a 4-byte
boundary, compute offset16 = sz32 (the BYTE count of stream A, although
floodFromStream reads header word 2 as a count of 4-byte words),
offset8 = offset16 + sz16/2 and totalSize = offset8 + sz8/4, write the
4-word header, then write sz8 bytes taken from buffer32, sz16 bytes from
buffer16 and sz32 bytes from buffer8 — the source pairs each byte count
with the wrong buffer. -/
def SplitStream.flushToStream (s : SplitStream) (dest : MemRStream) : MemRStream :=
  let sz8a := s.b8.pos
  let sz16a := s.b16.pos
  let sz32 := s.b32.pos
  let p16 := if sz16a % 2 = 1 then (s.b16.writeValW 2 0, sz16a + 1) else (s.b16, sz16a)
  let b16 := p16.1
  let sz16 := p16.2
  let p8 := padLoop8 s.b8 sz8a
  let b8 := p8.1
  let sz8 := p8.2
  let offset16 := sz32
  let offset8 := offset16 + sz16 / 2
  let totalSize := offset8 + sz8 / 4
  let hdr := leBytes 4 (s.dtsVersion % 65536 + 65536) ++ leBytes 4 (totalSize % U32) ++
             leBytes 4 (offset16 % U32) ++ leBytes 4 (offset8 % U32)
  let d1 := dest.writeBytes hdr
  let d2 := d1.writeBytes (s.b32.allocBytes sz8)
  let d3 := d2.writeBytes (b16.allocBytes sz16)
  let d4 := d3.writeBytes (b8.allocBytes sz32)
  d4

/-- Write-side split state with capacity for one u32, one u16 and one u8
plus the stream C padding. -/
def c7WriteState : SplitStream :=
  { b32 := { mem := [0, 0, 0, 0], start := 0, pos := 0, size := 4 }
    b16 := { mem := [0, 0], start := 0, pos := 0, size := 2 }
    b8 := { mem := [0, 0, 0, 0], start := 0, pos := 0, size := 4 }
    checkCount := 0
    dtsVersion := 24 }

/-- Store the scalar sequence u32 7, u16 5, u8 3 through the sized write
entry points, flush into a fresh 64-byte destination, flood the result
back, and re-read the three scalars. -/
def c7RoundTrip : (Nat × Nat × Nat) × Bool :=
  let w := ((c7WriteState.write32 7).write16 5).write8 3
  let dest0 : MemRStream := { mem := List.replicate 64 0, start := 0, pos := 0, size := 64 }
  let d := w.flushToStream dest0
  let dsrc : MemRStream := { d with pos := 0 }
  match SplitStream.floodFromStream dsrc with
  | none => ((0, 0, 0), false)
  | some (ss, _) =>
    let r1 := ss.readU32 0
    let r2 := r1.2.readU16 0
    let r3 := r2.2.readU8 0
    ((r1.1, r2.1, r3.1), true)

/-- C7: the container round trip does not reproduce the written scalars.
Writing (u32 7, u16 5, u8 3), flushing and flooding reads back
(7, 0, 0): flushToStream records offset16 = sz32 in bytes where
floodFromStream expects words, and writes sz8 bytes of buffer32, sz16 of
buffer16 and sz32 of buffer8, so streams B and C of the re-read land in
zero filler.  In addition the scalar write template compares sizeof(T)
with 32/16/8 and therefore never stores anything at all. -/
theorem c7_roundtrip_code_bug :
    c7RoundTrip = ((7, 0, 0), true) ∧
    ((7, 0, 0) : Nat × Nat × Nat) ≠ (7, 5, 3) ∧
    c7WriteState.writeScalar 4 7 = c7WriteState := by
  refine ⟨by decide, by decide, by decide⟩

/-- Model of Dts3::Mesh as the migrator sees it: the type tag (T_Standard 0,
T_Skin 1, T_Decal 2, T_Sorted 3, T_Null 4), mFlags, and an abstract
payload tag standing for the mData pointer, which moves with the mesh. -/
structure MeshRec where
  mtype : Nat
  mflags : Nat
  payload : Nat
deriving Repr, DecidableEq

/-- A default-constructed Mesh (type T_Null, no flags, no payload); also
what takeSkin leaves behind in a vacated tail slot. -/
def nullMesh : MeshRec := { mtype := 4, mflags := 0, payload := 0 }

/-- Dts3::Object (shapeData.h fields, ints in the source). -/
structure ObjectRec where
  name : Int
  numMeshes : Int
  firstMesh : Int
  node : Int
  nextSibling : Int
  firstDecal : Int
deriving Repr, DecidableEq

/-- Dts3::ObjectState; vis is a float carried as its raw 32-bit pattern. -/
structure ObjectStateRec where
  vis : Nat
  frame : Int
  matFrame : Int
deriving Repr, DecidableEq

/-- ObjectState(1.0f, 0, 0): the default state the migrator splices in;
1065353216 is the bit pattern of 1.0f. -/
def defaultObjectState : ObjectStateRec := { vis := 1065353216, frame := 0, matFrame := 0 }

/-- Dts3::SubShape reduced to the field the migrator touches plus a tag
standing for the untouched fields. -/
structure SubShapeRec where
  numObjects : Int
  tag : Nat
deriving Repr, DecidableEq

/-- Dts3::Sequence reduced to the field the migrator touches plus a tag
standing for the untouched fields. -/
structure SequenceRec where
  baseObjectState : Int
  tag : Nat
deriving Repr, DecidableEq

/-- The Shape arrays handled by IO::correctPreV32Skins. -/
structure MigrateState where
  meshes : List MeshRec
  objects : List ObjectRec
  objectStates : List ObjectStateRec
  subshapes : List SubShapeRec
  sequences : List SequenceRec
deriving Repr, DecidableEq

/-- The migrator's running triple: the mesh array being vacated, the
skinsCopy vector being filled, and the skinsUsed counter. -/
structure TakeState where
  meshes : List MeshRec
  skinsCopy : List MeshRec
  skinsUsed : Nat
deriving Repr, DecidableEq

/-- The takeSkin lambda of correctPreV32Skins: if tail slot
numMeshes + skinIdx holds a non-Null mesh, move it onto skinsCopy and
leave a definite Null (cleared flags and payload) behind. -/
def takeSkin (numMeshes : Nat) (ts : TakeState) (skinIdx : Nat) : TakeState × Bool :=
  let src := ts.meshes.getD (numMeshes + skinIdx) nullMesh
  if src.mtype = 4 then (ts, false)
  else ({ meshes := ts.meshes.set (numMeshes + skinIdx) nullMesh,
          skinsCopy := ts.skinsCopy ++ [src],
          skinsUsed := ts.skinsUsed + 1 }, true)

/-- The inner for loop over one detail level's sub-range of the tail:
try takeSkin at i, i+1, ... for count iterations, stopping at the first
success. -/
def scanRange (numMeshes : Nat) (ts : TakeState) : Nat → Nat → TakeState × Bool
  | _, 0 => (ts, false)
  | i, count + 1 =>
    let r := takeSkin numMeshes ts i
    if r.2 then (r.1, true) else scanRange numMeshes r.1 (i + 1) count

/-- The per-detail-level body of one pass of the migrator's while loop:
for each level dl, scan its sub-range [first, min(first+cnt, numSkins))
when first >= 0 and cnt > 0; either way the object gains one mesh slot
(a placeholder Null is appended when no skin was found).  numLeft counts
the remaining detail levels, objN the object's mesh count so far. -/
def passDetails (numMeshes numSkins : Nat) (dfs dns : List Int) :
    Nat → Nat → TakeState → Nat → TakeState × Nat
  | _, 0, ts, objN => (ts, objN)
  | dl, numLeft + 1, ts, objN =>
    let first := dfs.getD dl 0
    let cnt := dns.getD dl 0
    let scanned :=
      if 0 ≤ first ∧ 0 < cnt then
        let stop : Int := min (first + cnt) (numSkins : Int)
        scanRange numMeshes ts first.toNat (stop - first).toNat
      else (ts, false)
    if scanned.2 then
      passDetails numMeshes numSkins dfs dns (dl + 1) numLeft scanned.1 (objN + 1)
    else
      passDetails numMeshes numSkins dfs dns (dl + 1) numLeft
        { scanned.1 with skinsCopy := scanned.1.skinsCopy ++ [nullMesh] } (objN + 1)

/-- The trim step on the reversed skinsCopy: drop leading Nulls, counting
them. -/
def dropNullsRev : List MeshRec → List MeshRec × Nat
  | [] => ([], 0)
  | x :: t => if x.mtype = 4 then
      let r := dropNullsRev t
      (r.1, r.2 + 1)
    else (x :: t, 0)

/-- The migrator's trailing-Null trim: pop Null meshes off the back of
skinsCopy, counting how many were removed. -/
def dropTrailingNulls (l : List MeshRec) : List MeshRec × Nat :=
  let r := dropNullsRev l.reverse
  (r.1.reverse, r.2)

/-- One iteration of the migrator's while (skinsUsed < present) loop per
fuel unit: build one synthetic Object spanning the detail levels, trim its
trailing placeholders, and append it when it kept at least one mesh.  The
C source's loop does not terminate when a pass takes no skin; the fuel
bound (numSkins + 1 at the call site) is the model's only deviation, and
it is never reached on inputs where every pass consumes a skin. -/
def migrateLoop (numMeshes numSkins numDetails present : Nat) (dfs dns : List Int) :
    Nat → TakeState → List ObjectRec → Nat → TakeState × List ObjectRec × Nat
  | 0, ts, objs, nso => (ts, objs, nso)
  | fuel + 1, ts, objs, nso =>
    if ts.skinsUsed < present then
      let firstMesh : Int := (numMeshes : Int) + (ts.skinsCopy.length : Int)
      let p := passDetails numMeshes numSkins dfs dns 0 numDetails ts 0
      let tr := dropTrailingNulls p.1.skinsCopy
      let objNum : Int := (p.2 : Int) - (tr.2 : Int)
      let ts1 : TakeState := { p.1 with skinsCopy := tr.1 }
      if 0 < objNum then
        migrateLoop numMeshes numSkins numDetails present dfs dns fuel ts1
          (objs ++ [{ name := 0, numMeshes := objNum, firstMesh := firstMesh, node := -1,
                      nextSibling := -1, firstDecal := -1 }]) (nso + 1)
      else
        migrateLoop numMeshes numSkins numDetails present dfs dns fuel ts1 objs nso
    else (ts, objs, nso)

/-- present: the count of non-Null meshes in the numSkins-long tail. -/
def countPresent (meshes : List MeshRec) (numMeshes numSkins : Nat) : Nat :=
  (List.range numSkins).foldl
    (fun acc i => acc + if (meshes.getD (numMeshes + i) nullMesh).mtype ≠ 4 then 1 else 0) 0

/-- The write-back loop: meshes[numMeshes + i] = skinsCopy[i]. -/
def writeBackAux : List MeshRec → Nat → List MeshRec → List MeshRec
  | m, _, [] => m
  | m, i, x :: t => writeBackAux (m.set i x) (i + 1) t

/-- IO::correctPreV32Skins (shapeIO.h): the pre-v23 skin migration.  The
early-out guards, present count, synthetic-object while loop, tail
write-back and resize, single-subshape numObjects adjustment, default
ObjectState insertion at the pre-migration object count (memmove
semantics; the source's memmove size wraps when the insertion point lies
past the end of objectStates — that undefined case is modelled as a plain
append), and the baseObjectState shift of every Sequence. -/
def correctPreV32Skins (st : MigrateState) (detailFirstSkin detailNumSkins : List Int)
    (numMeshes numSkins numDetails : Nat) : MigrateState :=
  if numSkins = 0 ∨ numDetails = 0 ∨ detailFirstSkin.length < numDetails ∨
      detailNumSkins.length < numDetails then st
  else
    let present := countPresent st.meshes numMeshes numSkins
    if present = 0 then st
    else
      let oldNumObjects := st.objects.length
      let r := migrateLoop numMeshes numSkins numDetails present detailFirstSkin detailNumSkins
        (numSkins + 1) { meshes := st.meshes, skinsCopy := [], skinsUsed := 0 } st.objects 0
      let newSize := numMeshes + r.1.skinsCopy.length
      let meshes1 := writeBackAux r.1.meshes numMeshes r.1.skinsCopy
      let meshes2 := meshes1.take newSize ++ List.replicate (newSize - meshes1.length) nullMesh
      let nso := r.2.2
      let subshapes1 :=
        if st.subshapes.length = 1 then
          match st.subshapes with
          | x :: t => { x with numObjects := x.numObjects + (nso : Int) } :: t
          | [] => st.subshapes
        else st.subshapes
      let newStates :=
        if nso ≠ 0 then
          if oldNumObjects ≤ st.objectStates.length then
            st.objectStates.take oldNumObjects ++ List.replicate nso defaultObjectState ++
              st.objectStates.drop oldNumObjects
          else st.objectStates ++ List.replicate nso defaultObjectState
        else st.objectStates
      let newSeqs :=
        if nso ≠ 0 then
          st.sequences.map (fun q => { q with baseObjectState := q.baseObjectState + (nso : Int) })
        else st.sequences
      { meshes := meshes2, objects := r.2.1, objectStates := newStates,
        subshapes := subshapes1, sequences := newSeqs }

theorem getD_append_ix {α : Type} (l₁ l₂ : List α) (i : Nat) (d : α) :
    (l₁ ++ l₂).getD (l₁.length + i) d = l₂.getD i d := by
  induction l₁ with
  | nil => simp
  | cons a t ih =>
    simp only [List.cons_append, List.length_cons]
    rw [show t.length + 1 + i = (t.length + i) + 1 from by omega]
    simpa using ih

theorem set_append_ix {α : Type} (l₁ l₂ : List α) (i : Nat) (x : α) :
    (l₁ ++ l₂).set (l₁.length + i) x = l₁ ++ l₂.set i x := by
  induction l₁ with
  | nil => simp
  | cons a t ih =>
    simp only [List.cons_append, List.length_cons]
    rw [show t.length + 1 + i = (t.length + i) + 1 from by omega]
    simpa using ih

theorem getD_append_len {α : Type} (l₁ l₂ : List α) (d : α) :
    (l₁ ++ l₂).getD l₁.length d = l₂.getD 0 d := by
  simpa using getD_append_ix l₁ l₂ 0 d

theorem set_append_len {α : Type} (l₁ l₂ : List α) (x : α) :
    (l₁ ++ l₂).set l₁.length x = l₁ ++ l₂.set 0 x := by
  simpa using set_append_ix l₁ l₂ 0 x

theorem migrateLoop_step (nm nS nD pres : Nat) (dfs dns : List Int) (fuel : Nat)
    (ts : TakeState) (objs : List ObjectRec) (nso : Nat)
    (h : ts.skinsUsed < pres)
    (pRes : TakeState × Nat) (hp : passDetails nm nS dfs dns 0 nD ts 0 = pRes)
    (tRes : List MeshRec × Nat) (ht : dropTrailingNulls pRes.1.skinsCopy = tRes) :
    migrateLoop nm nS nD pres dfs dns (fuel + 1) ts objs nso =
      if 0 < (pRes.2 : Int) - (tRes.2 : Int) then
        migrateLoop nm nS nD pres dfs dns fuel { pRes.1 with skinsCopy := tRes.1 }
          (objs ++ [{ name := 0, numMeshes := (pRes.2 : Int) - (tRes.2 : Int),
                      firstMesh := (nm : Int) + (ts.skinsCopy.length : Int), node := -1,
                      nextSibling := -1, firstDecal := -1 }]) (nso + 1)
      else migrateLoop nm nS nD pres dfs dns fuel { pRes.1 with skinsCopy := tRes.1 } objs nso := by
  simp only [migrateLoop, hp, ht, if_pos h]

theorem migrateLoop_stop (nm nS nD pres : Nat) (dfs dns : List Int) (fuel : Nat)
    (ts : TakeState) (objs : List ObjectRec) (nso : Nat)
    (h : ¬ts.skinsUsed < pres) :
    migrateLoop nm nS nD pres dfs dns fuel ts objs nso = (ts, objs, nso) := by
  cases fuel with
  | zero => simp [migrateLoop]
  | succ f => simp only [migrateLoop, if_neg h]

theorem correctPreV32Skins_eval (st : MigrateState) (dfs dns : List Int)
    (nm nS nD : Nat)
    (hg : ¬(nS = 0 ∨ nD = 0 ∨ dfs.length < nD ∨ dns.length < nD))
    (pres : Nat) (hpres : countPresent st.meshes nm nS = pres) (hpnz : ¬pres = 0)
    (R : TakeState × List ObjectRec × Nat)
    (hR : migrateLoop nm nS nD pres dfs dns (nS + 1)
      { meshes := st.meshes, skinsCopy := [], skinsUsed := 0 } st.objects 0 = R) :
    correctPreV32Skins st dfs dns nm nS nD =
      { meshes := (writeBackAux R.1.meshes nm R.1.skinsCopy).take (nm + R.1.skinsCopy.length) ++
          List.replicate (nm + R.1.skinsCopy.length -
            (writeBackAux R.1.meshes nm R.1.skinsCopy).length) nullMesh
        objects := R.2.1
        objectStates :=
          if R.2.2 ≠ 0 then
            if st.objects.length ≤ st.objectStates.length then
              st.objectStates.take st.objects.length ++
                List.replicate R.2.2 defaultObjectState ++
                st.objectStates.drop st.objects.length
            else st.objectStates ++ List.replicate R.2.2 defaultObjectState
          else st.objectStates
        subshapes :=
          if st.subshapes.length = 1 then
            match st.subshapes with
            | x :: t => { x with numObjects := x.numObjects + (R.2.2 : Int) } :: t
            | [] => st.subshapes
          else st.subshapes
        sequences :=
          if R.2.2 ≠ 0 then
            st.sequences.map (fun q =>
              { q with baseObjectState := q.baseObjectState + (R.2.2 : Int) })
          else st.sequences } := by
  simp only [correctPreV32Skins, if_neg hg, hpres, if_neg hpnz, hR]

/-- C3: with numDetails = 2, detailFirstSkin = [0,2], detailNumSkins = [2,2]
and four non-Null skin meshes in the tail (after one ordinary mesh), the
migrator appends exactly two synthetic Objects (2 meshes each, firstMesh 1
and 3), splices exactly two default ObjectState records at the position
immediately following the pre-migration object count, shifting all later
entries back, and adds 2 to every Sequence's baseObjectState; the skins
are repacked into tail order s0, s2, s1, s3. -/
theorem c3_skin_migration (m0 s0 s1 s2 s3 : MeshRec)
    (objects : List ObjectRec) (states : List ObjectStateRec)
    (subs : List SubShapeRec) (seqs : List SequenceRec)
    (h0 : s0.mtype = 1) (h1 : s1.mtype = 1) (h2 : s2.mtype = 1) (h3 : s3.mtype = 1)
    (hins : objects.length ≤ states.length) :
    correctPreV32Skins
        { meshes := [m0, s0, s1, s2, s3], objects := objects, objectStates := states,
          subshapes := subs, sequences := seqs }
        [0, 2] [2, 2] 1 4 2 =
      { meshes := [m0, s0, s2, s1, s3]
        objects := objects ++
          [{ name := 0, numMeshes := 2, firstMesh := 1, node := -1,
             nextSibling := -1, firstDecal := -1 },
           { name := 0, numMeshes := 2, firstMesh := 3, node := -1,
             nextSibling := -1, firstDecal := -1 }]
        objectStates := states.take objects.length ++
          [defaultObjectState, defaultObjectState] ++ states.drop objects.length
        subshapes :=
          if subs.length = 1 then
            match subs with
            | x :: t => { x with numObjects := x.numObjects + 2 } :: t
            | [] => subs
          else subs
        sequences := seqs.map (fun q => { q with baseObjectState := q.baseObjectState + 2 }) } := by
  obtain ⟨t0, f0, p0⟩ := s0
  obtain ⟨t1, f1, p1⟩ := s1
  obtain ⟨t2, f2, p2⟩ := s2
  obtain ⟨t3, f3, p3⟩ := s3
  simp only [MeshRec.mtype] at h0 h1 h2 h3
  subst h0 h1 h2 h3
  have hp1 : passDetails 1 4 [0, 2] [2, 2] 0 2
      { meshes := [m0, ⟨1, f0, p0⟩, ⟨1, f1, p1⟩, ⟨1, f2, p2⟩, ⟨1, f3, p3⟩],
        skinsCopy := [], skinsUsed := 0 } 0 =
      ({ meshes := [m0, nullMesh, ⟨1, f1, p1⟩, nullMesh, ⟨1, f3, p3⟩],
         skinsCopy := [⟨1, f0, p0⟩, ⟨1, f2, p2⟩], skinsUsed := 2 }, 2) := by
    simp [passDetails, scanRange, takeSkin, nullMesh]
  have hp2 : passDetails 1 4 [0, 2] [2, 2] 0 2
      { meshes := [m0, nullMesh, ⟨1, f1, p1⟩, nullMesh, ⟨1, f3, p3⟩],
        skinsCopy := [⟨1, f0, p0⟩, ⟨1, f2, p2⟩], skinsUsed := 2 } 0 =
      ({ meshes := [m0, nullMesh, nullMesh, nullMesh, nullMesh],
         skinsCopy := [⟨1, f0, p0⟩, ⟨1, f2, p2⟩, ⟨1, f1, p1⟩, ⟨1, f3, p3⟩], skinsUsed := 4 }, 2) := by
    simp [passDetails, scanRange, takeSkin, nullMesh]
  have htrim1 : dropTrailingNulls [(⟨1, f0, p0⟩ : MeshRec), ⟨1, f2, p2⟩] =
      ([⟨1, f0, p0⟩, ⟨1, f2, p2⟩], 0) := by
    simp [dropTrailingNulls, dropNullsRev]
  have htrim2 : dropTrailingNulls
      [(⟨1, f0, p0⟩ : MeshRec), ⟨1, f2, p2⟩, ⟨1, f1, p1⟩, ⟨1, f3, p3⟩] =
      ([⟨1, f0, p0⟩, ⟨1, f2, p2⟩, ⟨1, f1, p1⟩, ⟨1, f3, p3⟩], 0) := by
    simp [dropTrailingNulls, dropNullsRev]
  have hml : migrateLoop 1 4 2 4 [0, 2] [2, 2] (4 + 1)
      { meshes := [m0, ⟨1, f0, p0⟩, ⟨1, f1, p1⟩, ⟨1, f2, p2⟩, ⟨1, f3, p3⟩],
        skinsCopy := [], skinsUsed := 0 } objects 0 =
      ({ meshes := [m0, nullMesh, nullMesh, nullMesh, nullMesh],
         skinsCopy := [⟨1, f0, p0⟩, ⟨1, f2, p2⟩, ⟨1, f1, p1⟩, ⟨1, f3, p3⟩], skinsUsed := 4 },
       objects ++
         [{ name := 0, numMeshes := 2, firstMesh := 1, node := -1,
            nextSibling := -1, firstDecal := -1 },
          { name := 0, numMeshes := 2, firstMesh := 3, node := -1,
            nextSibling := -1, firstDecal := -1 }], 2) := by
    rw [migrateLoop_step 1 4 2 4 [0, 2] [2, 2] 4 _ objects 0 (by norm_num) _ hp1 _ htrim1]
    rw [if_pos (by norm_num)]
    norm_num
    rw [migrateLoop_step 1 4 2 4 [0, 2] [2, 2] 3 _ _ 1 (by norm_num) _ hp2 _ htrim2]
    rw [if_pos (by norm_num)]
    norm_num
    rw [migrateLoop_stop 1 4 2 4 [0, 2] [2, 2] 3 _ _ 2 (by norm_num)]
  have hcp : countPresent [m0, ⟨1, f0, p0⟩, ⟨1, f1, p1⟩, ⟨1, f2, p2⟩, ⟨1, f3, p3⟩] 1 4 = 4 := by
    simp [countPresent, List.range_succ, nullMesh]
  have hwb : writeBackAux [m0, nullMesh, nullMesh, nullMesh, nullMesh] 1
      [⟨1, f0, p0⟩, ⟨1, f2, p2⟩, ⟨1, f1, p1⟩, ⟨1, f3, p3⟩] =
      [m0, ⟨1, f0, p0⟩, ⟨1, f2, p2⟩, ⟨1, f1, p1⟩, ⟨1, f3, p3⟩] := by
    simp [writeBackAux]
  rw [correctPreV32Skins_eval
    { meshes := [m0, ⟨1, f0, p0⟩, ⟨1, f1, p1⟩, ⟨1, f2, p2⟩, ⟨1, f3, p3⟩], objects := objects,
      objectStates := states, subshapes := subs, sequences := seqs }
    [0, 2] [2, 2] 1 4 2 (by norm_num) 4 hcp (by norm_num)
    ({ meshes := [m0, nullMesh, nullMesh, nullMesh, nullMesh],
       skinsCopy := [⟨1, f0, p0⟩, ⟨1, f2, p2⟩, ⟨1, f1, p1⟩, ⟨1, f3, p3⟩], skinsUsed := 4 },
     objects ++
       [{ name := 0, numMeshes := 2, firstMesh := 1, node := -1,
          nextSibling := -1, firstDecal := -1 },
        { name := 0, numMeshes := 2, firstMesh := 3, node := -1,
          nextSibling := -1, firstDecal := -1 }], 2) hml]
  norm_num [hwb, hins, defaultObjectState, List.replicate_succ]

/-- Witness for c3_skin_migration on a fully concrete shape. -/
theorem c3_skin_migration_witness :
    correctPreV32Skins
        { meshes := [⟨0, 0, 99⟩, ⟨1, 0, 10⟩, ⟨1, 0, 11⟩, ⟨1, 0, 12⟩, ⟨1, 0, 13⟩]
          objects := [⟨5, 1, 0, 0, -1, -1⟩]
          objectStates := [⟨7, 1, 2⟩, ⟨8, 3, 4⟩]
          subshapes := [⟨1, 0⟩]
          sequences := [⟨3, 0⟩, ⟨-1, 1⟩] }
        [0, 2] [2, 2] 1 4 2 =
      { meshes := [⟨0, 0, 99⟩, ⟨1, 0, 10⟩, ⟨1, 0, 12⟩, ⟨1, 0, 11⟩, ⟨1, 0, 13⟩]
        objects := [⟨5, 1, 0, 0, -1, -1⟩] ++
          [{ name := 0, numMeshes := 2, firstMesh := 1, node := -1,
             nextSibling := -1, firstDecal := -1 },
           { name := 0, numMeshes := 2, firstMesh := 3, node := -1,
             nextSibling := -1, firstDecal := -1 }]
        objectStates := [(⟨7, 1, 2⟩ : ObjectStateRec), ⟨8, 3, 4⟩].take 1 ++
          [defaultObjectState, defaultObjectState] ++
          [(⟨7, 1, 2⟩ : ObjectStateRec), ⟨8, 3, 4⟩].drop 1
        subshapes :=
          if [(⟨1, 0⟩ : SubShapeRec)].length = 1 then
            match [(⟨1, 0⟩ : SubShapeRec)] with
            | x :: t => { x with numObjects := x.numObjects + 2 } :: t
            | [] => [(⟨1, 0⟩ : SubShapeRec)]
          else [(⟨1, 0⟩ : SubShapeRec)]
        sequences := [(⟨3, 0⟩ : SequenceRec), ⟨-1, 1⟩].map
          (fun q => { q with baseObjectState := q.baseObjectState + 2 }) } :=
  c3_skin_migration ⟨0, 0, 99⟩ ⟨1, 0, 10⟩ ⟨1, 0, 11⟩ ⟨1, 0, 12⟩ ⟨1, 0, 13⟩
    [⟨5, 1, 0, 0, -1, -1⟩] [⟨7, 1, 2⟩, ⟨8, 3, 4⟩] [⟨1, 0⟩] [⟨3, 0⟩, ⟨-1, 1⟩]
    rfl rfl rfl rfl (by decide)

/-- Node as the graph pass sees it (Dts3::Node, all fields int). -/
structure GNode where
  name : Int
  parent : Int
  firstObject : Int
  firstChild : Int
  nextSibling : Int
deriving Repr, DecidableEq

/-- The out-of-range placeholder for node list lookups (indexing outside
the vector is undefined behaviour in the source; no claim exercises it). -/
def dNode : GNode := { name := 0, parent := -1, firstObject := -1, firstChild := -1,
                       nextSibling := -1 }

/-- Node::resetRuntime: the three runtime-only fields return to -1. -/
def GNode.resetRuntime (n : GNode) : GNode :=
  { n with firstObject := -1, firstChild := -1, nextSibling := -1 }

/-- The sibling-chain walk of initShapeObjects: follow nextSibling while it
is non-negative.  The chain built by the pass is acyclic and shorter than
the node count, so fuel = node count is never exhausted on the states the
pass produces. -/
def chainTail (ns : List GNode) : Nat → Nat → Nat
  | 0, idx => idx
  | fuel + 1, idx =>
    let nxt := (ns.getD idx dNode).nextSibling
    if nxt ≥ 0 then chainTail ns fuel nxt.toNat else idx

/-- One step of the node pass of initShapeObjects: for node i with parent
p >= 0, either make i the parent's firstChild (when it is still -1) or
append i at the tail of the parent's existing sibling chain. -/
def attachNode (ns : List GNode) (i : Nat) : List GNode :=
  let p := (ns.getD i dNode).parent
  if p ≥ 0 then
    let pn := ns.getD p.toNat dNode
    if pn.firstChild < 0 then
      ns.set p.toNat { pn with firstChild := (i : Int) }
    else
      let tailIdx := chainTail ns ns.length pn.firstChild.toNat
      let tn := ns.getD tailIdx dNode
      ns.set tailIdx { tn with nextSibling := (i : Int) }
  else ns

/-- The node portion of initShapeObjects (viewer runtime): resetRuntime on
every node, then the single forward pass assigning firstChild and sibling
chains.  The subsequent object and decal passes of initShapeObjects write
only Node.firstObject, never firstChild or nextSibling. -/
def initShapeObjectsNodes (ns : List GNode) : List GNode :=
  let rs := ns.map GNode.resetRuntime
  (List.range rs.length).foldl (fun acc i => attachNode acc i) rs

/-- The spec's four-node example: parents [-1, 0, 0, 1]; runtime fields
hold junk (9) to show they are reset before the pass. -/
def c6Nodes : List GNode :=
  [{ name := 0, parent := -1, firstObject := 9, firstChild := 9, nextSibling := 9 },
   { name := 1, parent := 0, firstObject := 9, firstChild := 9, nextSibling := 9 },
   { name := 2, parent := 0, firstObject := 9, firstChild := 9, nextSibling := 9 },
   { name := 3, parent := 1, firstObject := 9, firstChild := 9, nextSibling := 9 }]

/-- C6: on nodes with parents [-1, 0, 0, 1] the single forward pass yields
node0.firstChild = 1, node1.nextSibling = 2 (node 2 appended at the tail
of node 0's chain) and node1.firstChild = 3. -/
theorem c6_graph_reconstruction :
    ((initShapeObjectsNodes c6Nodes).getD 0 dNode).firstChild = 1 ∧
    ((initShapeObjectsNodes c6Nodes).getD 1 dNode).nextSibling = 2 ∧
    ((initShapeObjectsNodes c6Nodes).getD 1 dNode).firstChild = 3 := by
  refine ⟨by decide, by decide, by decide⟩

/-- A render material reduced to the two bits initRenderMaterials tests.
Modelled from the spec: the numeric values of MaterialList::Translucent
and MaterialList::AuxiliaryMap are referenced by the viewer but defined
nowhere in the repository snapshot; since the scan only tests those two
bits of tsProps.flags, a material is carried as the two booleans. -/
structure RMaterial where
  translucent : Bool
  auxiliary : Bool
deriving Repr, DecidableEq

/-- A mesh as the translucency scan sees it: the type tag and the matIndex
words of its BasicData primitives; getBasicData returns NULL exactly for
T_Decal (2) and T_Null (4) and beyond. -/
structure RMesh where
  mtype : Nat
  primitives : List Nat
deriving Repr, DecidableEq

/-- SubShape as the scan sees it. -/
structure RSubShape where
  firstObject : Int
  numObjects : Int
  firstTranslucent : Int
  tag : Nat
deriving Repr, DecidableEq

/-- The viewer Shape state touched by initRenderMaterials. -/
structure RShape where
  subshapes : List RSubShape
  objects : List ObjectRec
  meshes : List RMesh
  materials : List RMaterial
  runtimeFlags : Nat
deriving Repr, DecidableEq

/-- The primitive loop of initRenderMaterials: skip primitives with the
Primitive::NoMaterial bit (BIT 28); look the material up through
Primitive::MaterialMask (low 28 bits); skip materials with AuxiliaryMap;
report the first with Translucent. -/
def primScanMesh (mats : List RMaterial) : List Nat → Bool
  | [] => false
  | p :: rest =>
    if Nat.testBit p 28 then primScanMesh mats rest
    else
      let m := mats.getD (p % 2 ^ 28) { translucent := false, auxiliary := false }
      if m.auxiliary then primScanMesh mats rest
      else if m.translucent then true
      else primScanMesh mats rest

/-- The mesh loop over one object: meshes firstMesh..firstMesh+numMeshes-1,
ignoring meshes without BasicData; reports whether a qualifying primitive
exists (the source breaks at the first hit, which for this boolean is the
same thing). -/
def objFound (meshes : List RMesh) (mats : List RMaterial) (obj : ObjectRec) : Bool :=
  (List.range obj.numMeshes.toNat).any (fun j =>
    let mesh := meshes.getD (obj.firstMesh + (j : Int)).toNat { mtype := 4, primitives := [] }
    decide (mesh.mtype < 4 ∧ mesh.mtype ≠ 2) && primScanMesh mats mesh.primitives)

/-- The object loop over one SubShape: the index i (relative to the
SubShape's firstObject) of the first object containing a qualifying
primitive. -/
def subShapeHit (objs : List ObjectRec) (meshes : List RMesh) (mats : List RMaterial)
    (firstObject : Int) : Nat → Nat → Option Nat
  | _, 0 => none
  | i, c + 1 =>
    let obj := objs.getD (firstObject + (i : Int)).toNat
      { name := 0, numMeshes := 0, firstMesh := 0, node := -1, nextSibling := -1,
        firstDecal := -1 }
    if objFound meshes mats obj then some i
    else subShapeHit objs meshes mats firstObject (i + 1) c

/-- The SubShape loop of initRenderMaterials: each visited SubShape first
gets firstTranslucent = firstObject + numObjects; at the first hit the
SubShape's firstTranslucent becomes the loop index i of the hit object
(relative to firstObject) and the loop breaks for the whole Shape, leaving
every later SubShape completely untouched. -/
def irmGo (objs : List ObjectRec) (meshes : List RMesh) (mats : List RMaterial) :
    List RSubShape → List RSubShape × Bool
  | [] => ([], false)
  | s :: rest =>
    let s1 := { s with firstTranslucent := s.firstObject + s.numObjects }
    match subShapeHit objs meshes mats s.firstObject 0 s.numObjects.toNat with
    | some i => ({ s1 with firstTranslucent := (i : Int) } :: rest, true)
    | none =>
      let r := irmGo objs meshes mats rest
      (s1 :: r.1, r.2)

/-- initRenderMaterials (viewer runtime): the translucency boundary pass;
Shape::HasTranslucency is BIT 7 = 128. -/
def initRenderMaterials (shape : RShape) : RShape :=
  let r := irmGo shape.objects shape.meshes shape.materials shape.subshapes
  { shape with
    subshapes := r.1,
    runtimeFlags := if r.2 then shape.runtimeFlags ||| 128 else shape.runtimeFlags }

/-- A shape whose only SubShape starts at object 1; object 1 (the second
in the Shape) owns mesh 0, whose single primitive uses the translucent,
non-auxiliary material 0. -/
def c4HitShape : RShape :=
  { subshapes := [{ firstObject := 1, numObjects := 1, firstTranslucent := -1, tag := 0 }]
    objects := [{ name := 0, numMeshes := 0, firstMesh := 0, node := -1, nextSibling := -1,
                  firstDecal := -1 },
                { name := 0, numMeshes := 1, firstMesh := 0, node := -1, nextSibling := -1,
                  firstDecal := -1 }]
    meshes := [{ mtype := 0, primitives := [0] }]
    materials := [{ translucent := true, auxiliary := false }]
    runtimeFlags := 0 }

/-- Two SubShapes, each with one object whose mesh is translucent; the
second SubShape starts at object 1 and carries tag 7. -/
def c4TwoShape : RShape :=
  { subshapes := [{ firstObject := 0, numObjects := 1, firstTranslucent := -1, tag := 3 },
                  { firstObject := 1, numObjects := 1, firstTranslucent := -1, tag := 7 }]
    objects := [{ name := 0, numMeshes := 1, firstMesh := 0, node := -1, nextSibling := -1,
                  firstDecal := -1 },
                { name := 0, numMeshes := 1, firstMesh := 0, node := -1, nextSibling := -1,
                  firstDecal := -1 }]
    meshes := [{ mtype := 0, primitives := [0] }]
    materials := [{ translucent := true, auxiliary := false }]
    runtimeFlags := 0 }

/-- Like c4HitShape but with one object at 0 whose material is both
translucent and auxiliary. -/
def c4AuxShape : RShape :=
  { subshapes := [{ firstObject := 0, numObjects := 1, firstTranslucent := -1, tag := 3 }]
    objects := [{ name := 0, numMeshes := 1, firstMesh := 0, node := -1, nextSibling := -1,
                  firstDecal := -1 }]
    meshes := [{ mtype := 0, primitives := [0] }]
    materials := [{ translucent := true, auxiliary := true }]
    runtimeFlags := 0 }

/-- The placeholder used for SubShape lookups in the statements below. -/
def dSub : RSubShape := { firstObject := 0, numObjects := 0, firstTranslucent := 0, tag := 0 }

/-- C4 counterexample: in c4HitShape the object containing the translucent
primitive has index 1 in the Shape's object list, but the scan stores the
loop offset i = 0 (the object's position inside the SubShape's range) into
firstTranslucent, so firstTranslucent is 0, not the claimed object index 1. -/
theorem c4_offset_counterexample :
    ((initRenderMaterials c4HitShape).subshapes.getD 0 dSub).firstTranslucent = 0 ∧
    ((0 : Int) ≠ 1) := by
  refine ⟨by decide, by decide⟩

/-- C4 amended: the first qualifying primitive sets the SubShape's
firstTranslucent to the hit object's offset inside the SubShape's object
range (its index minus firstObject), not its absolute index, and halts the
scan for the whole Shape: later SubShapes are not even initialised (their
firstTranslucent keeps its pre-pass value); a material with both
Translucent and AuxiliaryMap is skipped, leaving firstTranslucent at
firstObject + numObjects. -/
theorem c4_translucent_scan_amended :
    ((initRenderMaterials c4HitShape).subshapes.getD 0 dSub).firstTranslucent = 0 ∧
    (initRenderMaterials c4TwoShape).subshapes =
      [{ firstObject := 0, numObjects := 1, firstTranslucent := 0, tag := 3 },
       { firstObject := 1, numObjects := 1, firstTranslucent := -1, tag := 7 }] ∧
    (initRenderMaterials c4TwoShape).runtimeFlags = 128 ∧
    (initRenderMaterials c4AuxShape).subshapes =
      [{ firstObject := 0, numObjects := 1, firstTranslucent := 1, tag := 3 }] ∧
    (initRenderMaterials c4AuxShape).runtimeFlags = 0 := by
  refine ⟨by decide, by decide, by decide, by decide, by decide⟩

/-- n successive 32-bit scalar reads from stream A (each an ignored-result
read whose destination held 0); raw words collected in order.  This is the
shape of every float/int loop in readMesh. -/
def readWords32 (s : SplitStream) : Nat → List Nat × SplitStream
  | 0 => ([], s)
  | n + 1 =>
    let r := s.readU32 0
    let rest := readWords32 r.2 n
    (r.1 :: rest.1, rest.2)

/-- n successive 8-bit scalar reads from stream C, values discarded (the
encoded-normal bytes of version > 21). -/
def readBytes8 (s : SplitStream) : Nat → SplitStream
  | 0 => s
  | n + 1 => readBytes8 (s.readU8 0).2 n

/-- SplitStream::read32(count, ptr): a single sized read of count words
from stream A; on failure the destination keeps its zero-initialised
bytes. -/
def bulk32 (s : SplitStream) (count : Nat) : List Nat × SplitStream :=
  let r := s.b32.readBytesD (4 * count) (List.replicate (4 * count) 0)
  (r.1, { s with b32 := r.2 })

/-- SplitStream::read16(count, ptr): a single sized read of count 16-bit
elements from stream B. -/
def bulk16 (s : SplitStream) (count : Nat) : List Nat × SplitStream :=
  let r := s.b16.readBytesD (2 * count) (List.replicate (2 * count) 0)
  (r.1, { s with b16 := r.2 })

/-- The geometry arrays of a BasicData mesh, as raw 32-bit words (3 per
vertex or normal, 2 per texture coordinate). -/
structure GeoOut where
  verts : List Nat
  tverts : List Nat
  normals : List Nat
deriving Repr, DecidableEq

/-- The verts/tverts/normals section of readMesh: with mParent < 0 each
count is read and its array follows (normals carry no count — the array is
sized from verts — plus one discarded encoded-normal byte per normal when
version > 21); with mParent >= 0 the vertex and texcoord counts are read
as raw counts and discarded, no array bytes are consumed, and the arrays
stay empty. -/
def readStdGeometry (parent : Int) (version : Nat) (s : SplitStream) :
    GeoOut × SplitStream :=
  let rv :=
    if parent < 0 then
      let rsz := s.readU32 0
      let rw := readWords32 rsz.2 (3 * rsz.1)
      (rw.1, rw.2)
    else
      let rsz := s.readU32 0
      (([] : List Nat), rsz.2)
  let rt :=
    if parent < 0 then
      let rsz := rv.2.readU32 0
      let rw := readWords32 rsz.2 (2 * rsz.1)
      (rw.1, rw.2)
    else
      let rsz := rv.2.readU32 0
      (([] : List Nat), rsz.2)
  let rn :=
    if parent < 0 then
      let rw := readWords32 rt.2 rv.1.length
      let s2 := if version > 21 then readBytes8 rw.2 (rv.1.length / 3) else rw.2
      (rw.1, s2)
    else
      (([] : List Nat), rt.2)
  ({ verts := rv.1, tverts := rt.1, normals := rn.1 }, rn.2)

/-- One Primitive: firstElement and numElements are uint16 (stream B),
matIndex is a 32-bit word (stream A). -/
def readPrimitiveM (s : SplitStream) : (Nat × Nat × Nat) × SplitStream :=
  let r1 := s.readU16 0
  let r2 := r1.2.readU16 0
  let r3 := r2.2.readU32 0
  ((r1.1, r2.1, r3.1), r3.2)

def readPrimitives (s : SplitStream) : Nat → List (Nat × Nat × Nat) × SplitStream
  | 0 => ([], s)
  | n + 1 =>
    let r := readPrimitiveM s
    let rest := readPrimitives r.2 n
    (r.1 :: rest.1, rest.2)

/-- The extra payload of a Skin mesh after the shared BasicData part.  For
mParent < 0: vertex count and re-read vertex words (replacing the basic
arrays), normals (no count) plus encoded-normal bytes for version > 21,
bone transform count and 16 words per matrix, weight count and the
vindex/bindex/vweight bulk reads, node-index count and bulk read.  For
mParent >= 0: one discarded count plus three discarded 32-bit reads.
Ends with a checkpoint either way. -/
structure SkinOut where
  vertsNew : List Nat
  normalsNew : List Nat
  replaced : Bool
  nodeTransforms : List Nat
  vindexBytes : List Nat
  bindexBytes : List Nat
  vweightBytes : List Nat
  nodeIndexBytes : List Nat
deriving Repr, DecidableEq

def readSkinSection (parent : Int) (version : Nat) (s : SplitStream) :
    SkinOut × SplitStream :=
  if parent < 0 then
    let rsz := s.readU32 0
    let rv := readWords32 rsz.2 (3 * rsz.1)
    let rn := readWords32 rv.2 (3 * rsz.1)
    let s1 := if version > 21 then readBytes8 rn.2 rsz.1 else rn.2
    let rtc := s1.readU32 0
    let rtm := readWords32 rtc.2 (16 * rtc.1)
    let rwc := rtm.2.readU32 0
    let rvi := bulk32 rwc.2 rwc.1
    let rbi := bulk32 rvi.2 rwc.1
    let rvw := bulk32 rbi.2 rwc.1
    let rnc := rvw.2.readU32 0
    let rni := bulk32 rnc.2 rnc.1
    let sEnd := (rni.2.readCheck).2
    ({ vertsNew := rv.1, normalsNew := rn.1, replaced := true, nodeTransforms := rtm.1,
       vindexBytes := rvi.1, bindexBytes := rbi.1, vweightBytes := rvw.1,
       nodeIndexBytes := rni.1 }, sEnd)
  else
    let rsz := s.readU32 0
    let r1 := rsz.2.readU32 0
    let r2 := r1.2.readU32 0
    let r3 := r2.2.readU32 0
    let sEnd := (r3.2.readCheck).2
    ({ vertsNew := [], normalsNew := [], replaced := false, nodeTransforms := [],
       vindexBytes := [], bindexBytes := [], vweightBytes := [], nodeIndexBytes := [] }, sEnd)

/-- The extra payload of a Sorted mesh: cluster count and 8 words per
cluster, then four counted bulk32 arrays, then the 1-byte
alwaysWriteDepth bool (stream C) and a checkpoint. -/
structure SortedOut where
  clusters : List Nat
  startClusterBytes : List Nat
  firstVertsBytes : List Nat
  numVertsBytes : List Nat
  firstTVertsBytes : List Nat
  alwaysWriteDepth : Nat
deriving Repr, DecidableEq

def readSortedSection (s : SplitStream) : SortedOut × SplitStream :=
  let rcc := s.readU32 0
  let rcl := readWords32 rcc.2 (8 * rcc.1)
  let r1c := rcl.2.readU32 0
  let r1 := bulk32 r1c.2 r1c.1
  let r2c := r1.2.readU32 0
  let r2 := bulk32 r2c.2 r2c.1
  let r3c := r2.2.readU32 0
  let r3 := bulk32 r3c.2 r3c.1
  let r4c := r3.2.readU32 0
  let r4 := bulk32 r4c.2 r4c.1
  let rb := r4.2.readU8 0
  let sEnd := (rb.2.readCheck).2
  ({ clusters := rcl.1, startClusterBytes := r1.1, firstVertsBytes := r2.1,
     numVertsBytes := r3.1, firstTVertsBytes := r4.1, alwaysWriteDepth := rb.1 }, sEnd)

/-- The decoded mesh fields of readMesh; raw words for the float-valued
header (bounds, center, radius). -/
structure MeshOut where
  numFrames : Nat
  numMatFrames : Nat
  parentWord : Nat
  headerWords : List Nat
  geo : GeoOut
  primitives : List (Nat × Nat × Nat)
  indicesBytes : List Nat
  mergeIndicesBytes : List Nat
  vertsPerFrame : Nat
  flags : Nat
  skin : Option SkinOut
  sorted : Option SortedOut
deriving Repr, DecidableEq

/-- A Mesh as its constructor leaves it (numFrames and numMatFrames 1,
parent -1 stored as the raw word 2^32 - 1), before any payload is read. -/
def defaultMeshOut : MeshOut :=
  { numFrames := 1, numMatFrames := 1, parentWord := U32 - 1, headerWords := [],
    geo := { verts := [], tverts := [], normals := [] }, primitives := [],
    indicesBytes := [], mergeIndicesBytes := [], vertsPerFrame := 0, flags := 0,
    skin := none, sorted := none }

/-- The shared BasicData part of IO::readMesh: leading checkpoint, frame
and matFrame counts, mParent, 10 float words (bounds, center, radius), the
geometry section, primitive count and primitives, the two 16-bit index
buffers with their counts, vertsPerFrame and flags, and the closing
checkpoint.  Failed reads leave the constructor defaults in place. -/
def readMeshBasic (version : Nat) (s : SplitStream) : MeshOut × SplitStream :=
  let s0 := (s.readCheck).2
  let r1 := s0.readU32 1
  let r2 := r1.2.readU32 1
  let r3 := r2.2.readU32 (U32 - 1)
  let rh := readWords32 r3.2 10
  let rg := readStdGeometry (toInt32 r3.1) version rh.2
  let rp := rg.2.readU32 0
  let rprims := readPrimitives rp.2 rp.1
  let ri := rprims.2.readU32 0
  let rib := bulk16 ri.2 ri.1
  let rm := rib.2.readU32 0
  let rmb := bulk16 rm.2 rm.1
  let rvpf := rmb.2.readU32 0
  let rfl := rvpf.2.readU32 0
  let sEnd := (rfl.2.readCheck).2
  ({ numFrames := r1.1, numMatFrames := r2.1, parentWord := r3.1, headerWords := rh.1,
     geo := rg.1, primitives := rprims.1, indicesBytes := rib.1,
     mergeIndicesBytes := rmb.1, vertsPerFrame := rvpf.1, flags := rfl.1,
     skin := none, sorted := none }, sEnd)

/-- IO::readMesh (shapeIO.h) for a mesh whose type tag was already read:
T_Null (4) short-circuits with no reads; T_Standard (0) is the BasicData
part; T_Skin (1) adds the skin section, whose re-read vertex and normal
arrays replace the BasicData ones when mParent < 0; T_Sorted (3) adds the
sorted section.  The source's T_Decal (2) branch dereferences a NULL
BasicData pointer (basicData->indices.resize) and cannot run to
completion; it is modelled as a no-op and no claim depends on it. -/
def readMesh (mtype version : Nat) (s : SplitStream) : MeshOut × SplitStream :=
  if mtype = 4 ∨ mtype = 2 then (defaultMeshOut, s)
  else
    let rb := readMeshBasic version s
    if mtype = 1 then
      let rs := readSkinSection (toInt32 rb.1.parentWord) version rb.2
      let geo1 := if rs.1.replaced then
          { verts := rs.1.vertsNew, tverts := rb.1.geo.tverts, normals := rs.1.normalsNew }
        else rb.1.geo
      ({ rb.1 with geo := geo1, skin := some rs.1 }, rs.2)
    else if mtype = 3 then
      let rs := readSortedSection rb.2
      ({ rb.1 with sorted := some rs.1 }, rs.2)
    else rb

theorem readValD_success (s : MemRStream) (w d : Nat)
    (h1 : s.pos < s.size) (h2 : s.pos + w ≤ s.size) (h3 : s.size < U64) :
    s.readValD w d = (leVal (s.bytesAt w), { s with pos := s.pos + w }) := by
  have hm : (s.pos + w) % U64 = s.pos + w := Nat.mod_eq_of_lt (by omega)
  have hg : ¬(s.size ≤ s.pos ∨ s.size < s.pos + w) := by omega
  simp [MemRStream.readValD, MemRStream.readValN, MemRStream.readBytesN, hm, hg]

theorem readStdGeometry_parented (parent : Int) (version : Nat) (t : SplitStream)
    (h : 0 ≤ parent) :
    (readStdGeometry parent version t).1 = { verts := [], tverts := [], normals := [] } := by
  have hn : ¬parent < 0 := by omega
  simp [readStdGeometry, hn]

theorem readSkinSection_parented (parent : Int) (version : Nat) (t : SplitStream)
    (h : 0 ≤ parent) :
    (readSkinSection parent version t).1.replaced = false := by
  have hn : ¬parent < 0 := by omega
  simp [readSkinSection, hn]

theorem readMeshBasic_geo_parented (version : Nat) (s : SplitStream)
    (h : 0 ≤ toInt32 (readMeshBasic version s).1.parentWord) :
    (readMeshBasic version s).1.geo = { verts := [], tverts := [], normals := [] } := by
  simp only [readMeshBasic] at h ⊢
  exact readStdGeometry_parented _ _ _ h

theorem readMesh_std (version : Nat) (s : SplitStream) :
    readMesh 0 version s = readMeshBasic version s := by
  simp [readMesh]

theorem readMesh_skin (version : Nat) (s : SplitStream) :
    readMesh 1 version s =
      ({ (readMeshBasic version s).1 with
         geo :=
           if (readSkinSection (toInt32 (readMeshBasic version s).1.parentWord) version
               (readMeshBasic version s).2).1.replaced then
             { verts := (readSkinSection (toInt32 (readMeshBasic version s).1.parentWord)
                 version (readMeshBasic version s).2).1.vertsNew,
               tverts := (readMeshBasic version s).1.geo.tverts,
               normals := (readSkinSection (toInt32 (readMeshBasic version s).1.parentWord)
                 version (readMeshBasic version s).2).1.normalsNew }
           else (readMeshBasic version s).1.geo,
         skin := some (readSkinSection (toInt32 (readMeshBasic version s).1.parentWord)
           version (readMeshBasic version s).2).1 },
       (readSkinSection (toInt32 (readMeshBasic version s).1.parentWord) version
         (readMeshBasic version s).2).2) := by
  simp [readMesh]

theorem readMesh_sorted (version : Nat) (s : SplitStream) :
    readMesh 3 version s =
      ({ (readMeshBasic version s).1 with
         sorted := some (readSortedSection (readMeshBasic version s).2).1 },
       (readSortedSection (readMeshBasic version s).2).2) := by
  simp [readMesh]

/-- C9: a mesh decoded with mParent >= 0 owns no geometry: for the three
BasicData-bearing mesh types the decoded vertex, texcoord and normal
arrays are empty (the skin section's re-read is also skipped), and the
geometry section of readMesh consumes exactly the two 32-bit raw counts
(vertex count and texcoord count — the format stores no normal count), so
the stream A cursor still advances by 8 bytes past them. -/
theorem c9_parented_mesh_no_geometry (mtype version : Nat) (s : SplitStream)
    (hty : mtype = 0 ∨ mtype = 1 ∨ mtype = 3)
    (hpar : 0 ≤ toInt32 (readMesh mtype version s).1.parentWord) :
    ((readMesh mtype version s).1.geo.verts = [] ∧
     (readMesh mtype version s).1.geo.tverts = [] ∧
     (readMesh mtype version s).1.geo.normals = []) ∧
    (∀ (parent : Int) (t : SplitStream), 0 ≤ parent →
      t.b32.pos + 8 ≤ t.b32.size → t.b32.size < U64 →
      readStdGeometry parent version t =
        ({ verts := [], tverts := [], normals := [] },
         { t with b32 := { t.b32 with pos := t.b32.pos + 8 } })) := by
  constructor
  · rcases hty with h | h | h
    · subst h
      rw [readMesh_std] at hpar ⊢
      rw [readMeshBasic_geo_parented version s hpar]
      exact ⟨rfl, rfl, rfl⟩
    · subst h
      rw [readMesh_skin] at hpar ⊢
      simp only at hpar
      have hrep := readSkinSection_parented (toInt32 (readMeshBasic version s).1.parentWord)
        version (readMeshBasic version s).2 hpar
      have hgeo := readMeshBasic_geo_parented version s hpar
      simp [hrep, hgeo]
    · subst h
      rw [readMesh_sorted] at hpar ⊢
      simp only at hpar
      have hgeo := readMeshBasic_geo_parented version s hpar
      simp [hgeo]
  · intro parent t hp h1 h2
    have hn : ¬parent < 0 := by omega
    have e1 := readValD_success t.b32 4 0 (by omega) (by omega) h2
    have e2 := readValD_success { t.b32 with pos := t.b32.pos + 4 } 4 0
      (by simp; omega) (by simp; omega) (by simpa using h2)
    have h48 : t.b32.pos + 4 + 4 = t.b32.pos + 8 := by omega
    simp only [readStdGeometry, if_neg hn, SplitStream.readU32, e1, e2, h48]

/-- A split stream whose A stream is 64 zero bytes: the parent word reads
as 0, so the decoded mesh is parented. -/
def c9Stream : SplitStream :=
  { b32 := { mem := List.replicate 64 0, start := 0, pos := 0, size := 64 }
    b16 := { mem := [], start := 0, pos := 0, size := 0 }
    b8 := { mem := [], start := 0, pos := 0, size := 0 }
    checkCount := 0
    dtsVersion := 24 }

/-- Witness for c9_parented_mesh_no_geometry: the standard mesh decoded
from c9Stream is parented and has empty geometry arrays, and the geometry
section at parent 0 on a 12-byte A stream at position 2 consumes exactly
8 bytes. -/
theorem c9_parented_mesh_witness :
    (readMesh 0 24 c9Stream).1.geo.verts = [] ∧
    readStdGeometry 0 24
      { b32 := { mem := List.replicate 12 7, start := 0, pos := 2, size := 12 }
        b16 := { mem := [], start := 0, pos := 0, size := 0 }
        b8 := { mem := [], start := 0, pos := 0, size := 0 }
        checkCount := 0, dtsVersion := 24 } =
      ({ verts := [], tverts := [], normals := [] },
       { b32 := { mem := List.replicate 12 7, start := 0, pos := 10, size := 12 }
         b16 := { mem := [], start := 0, pos := 0, size := 0 }
         b8 := { mem := [], start := 0, pos := 0, size := 0 }
         checkCount := 0, dtsVersion := 24 }) :=
  ⟨((c9_parented_mesh_no_geometry 0 24 c9Stream (Or.inl rfl) (by decide)).1).1,
   (c9_parented_mesh_no_geometry 0 24 c9Stream (Or.inl rfl) (by decide)).2 0
     { b32 := { mem := List.replicate 12 7, start := 0, pos := 2, size := 12 }
       b16 := { mem := [], start := 0, pos := 0, size := 0 }
       b8 := { mem := [], start := 0, pos := 0, size := 0 }
       checkCount := 0, dtsVersion := 24 }
     (by norm_num) (by norm_num) (by norm_num [U64])⟩
